import Mathlib

/-!
# Verification of the ZeroDev SDK validator-composition and signature-encoding core

Shallow embedding of the repository's plugin-manager, validator and multi-chain
aggregation logic.  Byte strings are modelled as `List Nat` (one entry per byte);
external collaborators (the typed-data signer, the read-only chain accessor, the
ABI encoder and the Keccak-256 hash) are modelled as function-valued inputs,
concrete injective stand-ins, or free constructors, as noted at each definition.
-/

namespace ZeroDevSpec

/-- A byte string: one list entry per byte. -/
abbrev Bytes := List Nat

/-- The two supported entry-point protocol versions
(`getEntryPointVersion(entryPointAddress)` in `toKernelPluginManager.ts`). -/
inductive EPVersion where
  | v06
  | v07
deriving DecidableEq, Repr

/-- Validator type discriminant (`validatorType` of a `KernelValidator`). -/
inductive VType where
  | sudo
  | secondary
  | permission
deriving DecidableEq, Repr

/-- The parts of a user operation the embedded code inspects:
`sender` and `callData` (`signUserOperation` reads `userOperation.sender` and the
first four bytes of `userOperation.callData`). -/
structure UserOp where
  sender : Bytes
  callData : Bytes

/-- Modelled from the spec: the EIP-712 enable payloads built by the missing
`getPluginsEnableTypedData` helpers (entry-point v0.6 / v0.7).  Per the spec the
payload is version-specific but always carries the action, the regular
validator's address and the validity window (v0.6) or validator nonce (v0.7).
A free constructor keeps the payload fully abstract while staying injective. -/
inductive TypedData where
  | enableV1 (accountAddress : Bytes) (chainId : Nat) (kernelVersion : Option Nat)
      (selector : Bytes) (executor : Bytes) (validatorAddress : Bytes)
      (validUntil : Nat) (validAfter : Nat)
  | enableV2 (accountAddress : Bytes) (chainId : Nat) (kernelVersion : Option Nat)
      (selector : Bytes) (executor : Bytes) (validatorAddress : Bytes)
      (validatorNonce : Nat)
deriving DecidableEq

/-- A validator (`KernelValidator`): its identity attributes together with its
capability functions.  The signing capabilities are external collaborators
(`sign`, `signTypedData`) and are therefore function-valued fields. -/
structure Validator where
  address : Bytes
  validatorType : VType
  identifier : Bytes
  subNonceKey : Nat
  isEnabled : Bytes → Bytes → Bool
  signUserOp : UserOp → Bytes
  signTypedDataFn : TypedData → Bytes
  dummySig : UserOp → Bytes

/-- The read-only chain accessor (collaborator (ii) of the spec): chain id,
`accountMetadata` kernel version, `getKernelV3Nonce` and `isPluginInitialized`. -/
structure ChainAccessor where
  chainId : Nat
  metadataVersion : Bytes → Option Nat
  kernelV3Nonce : Bytes → Nat
  pluginInitialized : Bytes → Bytes → Bool

/-- The immutable configuration captured by `toKernelPluginManager` after
construction: version tag, the optional sudo / regular validators, action
(`executorData`), validity window and the `kernelVersion` parameter.
The mutable `pluginEnableSignature` field is threaded separately as state. -/
structure ManagerCfg where
  version : EPVersion
  sudoV : Option Validator
  regular : Option Validator
  selector : Bytes
  executor : Bytes
  validUntil : Nat
  validAfter : Nat
  kernelVersionParam : Nat

/-- The lazily-populated enable-signature slot (`pluginEnableSignature`):
`none` models the JavaScript `undefined`, `some bytes` a hex string `0x…`
whose payload is `bytes` (possibly empty, for the string `"0x"`). -/
abbrev EnableSigState := Option Bytes

/-- Errors thrown by the embedded plugin-manager code, one constructor per
`throw new Error(...)` site (plus the `pad` size error of the viem collaborator). -/
inductive KErr where
  | noValidatorSet
  | regularNotSet
  | sudoNotSet
  | enableSignatureNotSet
  | padSizeExceeded
deriving DecidableEq, Repr

/-- The binding `const activeValidator = regular || sudo`. -/
def activeValidator (cfg : ManagerCfg) : Option Validator :=
  match cfg.regular with
  | some r => some r
  | none => cfg.sudoV

/-- The v0.6 `ValidatorMode.sudo` 4-byte prefix: `enum ValidatorMode { sudo =
"0x00000000", … }` in the kernel types document (the second document staged in
`src/packages/core/actions/pimlico.ts`, line 190). -/
def ValidatorModeSudo : Bytes := [0x00, 0x00, 0x00, 0x00]

/-- The v0.6 `ValidatorMode.plugin` prefix `0x00000001` (same enum,
`src/packages/core/actions/pimlico.ts` line 192). -/
def ValidatorModePlugin : Bytes := [0x00, 0x00, 0x00, 0x01]

/-- The v0.6 `ValidatorMode.enable` prefix `0x00000002` (same enum,
`src/packages/core/actions/pimlico.ts` line 193). -/
def ValidatorModeEnable : Bytes := [0x00, 0x00, 0x00, 0x02]

/-- Modelled from the spec: the one-byte `VALIDATOR_MODE.DEFAULT` constant of the
missing `constants.js` (the spec only requires it to be a single byte distinct
from `ENABLE`). -/
def VALIDATOR_MODE_DEFAULT : Nat := 0x00

/-- Modelled from the spec: the one-byte `VALIDATOR_MODE.ENABLE` constant. -/
def VALIDATOR_MODE_ENABLE : Nat := 0x01

/-- Modelled from the spec: the one-byte `VALIDATOR_TYPE` discriminants of the
missing `constants.js` (one byte per validator type). -/
def VALIDATOR_TYPE_BYTE : VType → Nat
  | .sudo => 0x00
  | .secondary => 0x01
  | .permission => 0x02

/-- A hex string such as `0x…` always carries the `0x` prefix, so as a JavaScript
string it is never falsy: the guard `if (!enableSignature)` in `getSignatureData`
(v0.6) tests exactly this, hence the model makes it constantly `false` — even the
empty byte string `"0x"` passes the guard. -/
def hexFalsy (_ : Bytes) : Bool := false

/-- Length-prefixed field, used by the concrete stand-in for the external ABI
encoder (collaborator (iii)): prefixing each variable-width field with its length
makes the stand-in injective on its fields. -/
def lenPre (b : Bytes) : Bytes := b.length :: b

/-- Fixed-width big-endian encoding of `n` into `w` bytes (value taken
modulo `256 ^ w`), the stand-in for fixed-width ABI words. -/
def natBytesBE (w n : Nat) : Bytes :=
  match w with
  | 0 => []
  | w' + 1 => natBytesBE w' (n / 256) ++ [n % 256]

/-- Modelled from the spec: the missing v0.6 `getEncodedPluginsData` returns the
`0x00000002` ENABLE prefix followed by the structured encoding of the account
address, the validity window, the regular validator's address, the executor
address and the enable signature (the caller appends the user-operation
signature afterwards).  The structured encoder itself is the external
collaborator (iii); `lenPre`/`natBytesBE` are its injective stand-ins. -/
def getEncodedPluginsDataV1 (accountAddress : Bytes) (validUntil validAfter : Nat)
    (validatorAddress executor enableSig : Bytes) : Bytes :=
  ValidatorModeEnable ++ lenPre accountAddress ++ natBytesBE 6 validUntil ++
    natBytesBE 6 validAfter ++ lenPre validatorAddress ++ lenPre executor ++
    lenPre enableSig

/-- Modelled from the spec: the missing v0.7 `getEncodedPluginsData` embeds
`(enableSignature, actionSelector, executorAddress, validatorAddress,
userOpSignature)` for the account via structured encoding (external
collaborator (iii), injective stand-in). -/
def getEncodedPluginsDataV2 (accountAddress selector executor : Bytes)
    (validatorAddress enableSig userOpSig : Bytes) : Bytes :=
  lenPre accountAddress ++ lenPre selector ++ lenPre executor ++
    lenPre validatorAddress ++ lenPre enableSig ++ lenPre userOpSig

/-- Embeds `isPluginEnabled` of `toKernelPluginManager.ts` (lines 126–135): throws when
no regular validator is set; on v0.6 queries `regular.isEnabled(account,
selector)`; on v0.7 additionally consults the on-chain
`isPluginInitialized(client, account, regular.address)` flag and uses the
action selector from `executorData` instead of the passed selector. -/
def isPluginEnabledE (cfg : ManagerCfg) (chain : ChainAccessor)
    (accountAddress selector : Bytes) : Except KErr Bool :=
  match cfg.regular with
  | none => .error .regularNotSet
  | some r =>
    match cfg.version with
    | .v06 => .ok (r.isEnabled accountAddress selector)
    | .v07 => .ok (r.isEnabled accountAddress cfg.selector
        || chain.pluginInitialized accountAddress r.address)

/-- Embeds `getPluginEnableSignature` of `toKernelPluginManager.ts` (lines 137–177),
with the mutable `pluginEnableSignature` slot threaded as explicit state.
Returns the signature, the updated slot, and the number of sudo
`signTypedData` ceremonies performed by this call.  Note that only the v0.6
branch writes the slot back (`pluginEnableSignature = ownerSig`); the v0.7
branch returns `ownerSig` and leaves the slot untouched. -/
def getPluginEnableSignatureS (cfg : ManagerCfg) (chain : ChainAccessor)
    (st : EnableSigState) (accountAddress : Bytes) :
    Except KErr (Bytes × EnableSigState × Nat) :=
  match st with
  | some sig => .ok (sig, some sig, 0)
  | none =>
    match cfg.sudoV with
    | none => .error .sudoNotSet
    | some s =>
      match cfg.regular with
      | none => .error .regularNotSet
      | some r =>
        let version := chain.metadataVersion accountAddress
        match cfg.version with
        | .v06 =>
          let td := TypedData.enableV1 accountAddress chain.chainId
            (match version with
              | some v => some v
              | none => some cfg.kernelVersionParam)
            cfg.selector cfg.executor r.address cfg.validUntil cfg.validAfter
          let ownerSig := s.signTypedDataFn td
          .ok (ownerSig, some ownerSig, 1)
        | .v07 =>
          let validatorNonce := chain.kernelV3Nonce accountAddress
          let td := TypedData.enableV2 accountAddress chain.chainId version
            cfg.selector cfg.executor r.address validatorNonce
          let ownerSig := s.signTypedDataFn td
          .ok (ownerSig, st, 1)

/-- Embeds `getSignatureData` of `toKernelPluginManager.ts` (lines 74–124).  On v0.6 it
returns the mode prefix (SUDO/PLUGIN) or the full ENABLE plugins-data blob,
ignoring `userOpSignature`; on v0.7 it returns `userOpSignature` directly when
the plugin is enabled (or only a sudo validator is set) and otherwise the
structured v0.7 ENABLE encoding.  State and ceremony count are threaded as in
`getPluginEnableSignatureS`. -/
def getSignatureDataS (cfg : ManagerCfg) (chain : ChainAccessor)
    (st : EnableSigState) (accountAddress selector userOpSignature : Bytes) :
    Except KErr (Bytes × EnableSigState × Nat) :=
  match cfg.version with
  | .v06 =>
    match cfg.regular with
    | some r =>
      if r.isEnabled accountAddress selector then
        .ok (ValidatorModePlugin, st, 0)
      else
        match getPluginEnableSignatureS cfg chain st accountAddress with
        | .error e => .error e
        | .ok (enableSig, st2, n) =>
          if hexFalsy enableSig then
            .error .enableSignatureNotSet
          else
            .ok (getEncodedPluginsDataV1 accountAddress cfg.validUntil
              cfg.validAfter r.address cfg.executor enableSig, st2, n)
    | none =>
      match cfg.sudoV with
      | some _ => .ok (ValidatorModeSudo, st, 0)
      | none => .error .noValidatorSet
  | .v07 =>
    match cfg.regular with
    | some r =>
      if r.isEnabled accountAddress cfg.selector
          || chain.pluginInitialized accountAddress r.address then
        .ok (userOpSignature, st, 0)
      else
        match getPluginEnableSignatureS cfg chain st accountAddress with
        | .error e => .error e
        | .ok (enableSig, st2, n) =>
          .ok (getEncodedPluginsDataV2 accountAddress cfg.selector cfg.executor
            r.address enableSig userOpSignature, st2, n)
    | none =>
      match cfg.sudoV with
      | some _ => .ok (userOpSignature, st, 0)
      | none => .error .noValidatorSet

/-- Embeds `signUserOperation` of the returned plugin manager (lines 188–205):
signs with the active validator, then on v0.6 prepends
`getSignatureData(sender, callData[0:4])` and on v0.7 routes the signature
through `getSignatureData(sender, callData[0:4], userOpSig)`. -/
def signUserOperationS (cfg : ManagerCfg) (chain : ChainAccessor)
    (st : EnableSigState) (op : UserOp) :
    Except KErr (Bytes × EnableSigState × Nat) :=
  match activeValidator cfg with
  | none => .error .noValidatorSet
  | some av =>
    let userOpSig := av.signUserOp op
    match cfg.version with
    | .v06 =>
      match getSignatureDataS cfg chain st op.sender (op.callData.take 4) [] with
      | .error e => .error e
      | .ok (sd, st2, n) => .ok (sd ++ userOpSig, st2, n)
    | .v07 =>
      getSignatureDataS cfg chain st op.sender (op.callData.take 4) userOpSig

/-- Big-endian interpretation of a byte string as a natural number
(`BigInt(pad(...))` in the source). -/
def beNat (b : Bytes) : Nat := b.foldl (fun acc d => acc * 256 + d) 0

/-- Embeds `getNonceKey` of the returned plugin manager (lines 229–254).  On v0.6 it
returns the active validator's own sub-nonce-key.  On v0.7 it assembles
`mode(1) || validatorType(1) || identifier || subKey(2 bytes)`, left-pads the
result to 24 bytes and interprets it big-endian; the viem `pad` collaborator
throws when a value exceeds its target size, modelled by `padSizeExceeded`. -/
def getNonceKeyS (cfg : ManagerCfg) (chain : ChainAccessor)
    (accountAddress : Bytes) : Except KErr Nat :=
  match activeValidator cfg with
  | none => .error .noValidatorSet
  | some av =>
    match cfg.version with
    | .v06 => .ok av.subNonceKey
    | .v07 =>
      let isDefault :=
        match cfg.regular with
        | none => true
        | some r => r.isEnabled accountAddress cfg.selector
            || chain.pluginInitialized accountAddress r.address
      let modeByte := if isDefault then VALIDATOR_MODE_DEFAULT else VALIDATOR_MODE_ENABLE
      let typeByte :=
        match cfg.regular with
        | some r => VALIDATOR_TYPE_BYTE r.validatorType
        | none => VALIDATOR_TYPE_BYTE .sudo
      if av.subNonceKey < 2 ^ 16 then
        let key := modeByte :: typeByte :: av.identifier
          ++ [av.subNonceKey / 256, av.subNonceKey % 256]
        if key.length ≤ 24 then
          .ok (beNat (List.replicate (24 - key.length) 0 ++ key))
        else
          .error .padSizeExceeded
      else
        .error .padSizeExceeded

/-!
## Multi-chain Merkle aggregator

`getMultiUserOpDummySignature.ts` builds a `MerkleTree` (library `merkletreejs`,
options `{ sortPairs: true }`, all other options at their defaults:
`hashLeaves: false`, `sortLeaves: false`, `duplicateOdd: false`).  Keccak-256 is
the external hash collaborator; it is modelled as the free constructor
`HashV.kec` (an ideal, collision-free hash), applied to the two children of an
internal node in ascending order.  The byte order used by `Buffer.compare` on
hash outputs is likewise external, so a fixed structural total order stands in
for it — none of the verified properties depend on which total order is used.
-/

/-- A 32-byte hash value, as a free algebra over Keccak-256: `raw` is an
externally given digest (a user-operation hash or the filler constant), `kec`
is the hash of the concatenation of two child digests. -/
inductive HashV where
  | raw (b : Bytes)
  | kec (l r : HashV)
deriving DecidableEq, Repr

/-- Lexicographic byte-string comparison (the behaviour of `Buffer.compare`
restricted to equal-length inputs, extended to all lengths). -/
def cmpBytes : Bytes → Bytes → Ordering
  | [], [] => .eq
  | [], _ :: _ => .lt
  | _ :: _, [] => .gt
  | a :: as, b :: bs => (compare a b).then (cmpBytes as bs)

/-- Structural stand-in for `Buffer.compare` on 32-byte digests (any fixed
total order gives the same provable properties). -/
def hcmp : HashV → HashV → Ordering
  | .raw a, .raw b => cmpBytes a b
  | .raw _, .kec _ _ => .lt
  | .kec _ _, .raw _ => .gt
  | .kec a b, .kec c d => (hcmp a c).then (hcmp b d)

/-- One sorted-pair combination step of the tree: hash the two children in
ascending order (`combined.sort(Buffer.compare)` before `hashFn` in
`merkletreejs`). -/
def combine (a b : HashV) : HashV :=
  match hcmp a b with
  | .gt => .kec b a
  | _ => .kec a b

/-- One layer-building pass of `merkletreejs`: adjacent nodes are combined
pairwise; with `duplicateOdd: false` a trailing odd node is promoted to the
next layer unchanged. -/
def layerUp : List HashV → List HashV
  | [] => []
  | [x] => [x]
  | a :: b :: rest => combine a b :: layerUp rest

/-- The layers of the tree, leaves first, root layer last (`this.layers` in
`merkletreejs`: the constructor stores the leaves and `createHashes` pushes one
layer per pass while more than one node remains).  Structural recursion on a
fuel argument keeps the definition kernel-evaluable; `buildLayers` supplies
`l.length` fuel, which always suffices since each pass at least halves the
node count. -/
def buildLayersAux : Nat → List HashV → List (List HashV)
  | 0, l => [l]
  | fuel + 1, l =>
    if l.length ≤ 1 then [l]
    else l :: buildLayersAux fuel (layerUp l)

/-- The layer list of the `merkletreejs` tree over `l`. -/
def buildLayers (l : List HashV) : List (List HashV) := buildLayersAux l.length l

/-- The Merkle root (`getRoot`), via the same fueled recursion. -/
def rootOfAux : Nat → List HashV → HashV
  | 0, l => l.headD (.raw [])
  | fuel + 1, l =>
    if l.length ≤ 1 then l.headD (.raw [])
    else rootOfAux fuel (layerUp l)

/-- The Merkle root of the tree over `l` (`merkleTree.getRoot()`). -/
def rootOf (l : List HashV) : HashV := rootOfAux l.length l

/-- The sibling entries collected by `merkletreejs`'s `getProof`: walking the
layers bottom-up, at each layer the pair index (`idx - 1` for a right node,
`idx + 1` for a left node) contributes the sibling when it is in range. -/
def proofAux : List (List HashV) → Nat → List HashV
  | [], _ => []
  | layer :: rest, idx =>
    let pairIndex := if idx % 2 = 1 then idx - 1 else idx + 1
    (if pairIndex < layer.length then [layer.getD pairIndex (.raw [])] else [])
      ++ proofAux rest (idx / 2)

/-- Embeds `bufferIndexOf`: the index of the first occurrence of `leaf` (the length of
the list when absent; the source only queries leaves that are present). -/
def idxOfLeaf (leaf : HashV) : List HashV → Nat
  | [] => 0
  | x :: xs => if x = leaf then 0 else idxOfLeaf leaf xs + 1

/-- Embeds `merkleTree.getProof(leaf)`: inclusion proof for the first occurrence of
`leaf` among the leaves of the tree over `l`. -/
def proofForLeaf (l : List HashV) (leaf : HashV) : List HashV :=
  proofAux (buildLayers l) (idxOfLeaf leaf l)

/-- Sorted-pair proof processing, as performed by an on-chain verifier:
fold the sibling list onto the leaf with the same order-independent
combination step. -/
def processProof (leaf : HashV) (proof : List HashV) : HashV :=
  proof.foldl combine leaf

/-- The fixed filler leaf of `getMultiUserOpDummySignature.ts`
(`0x` followed by 64 `a` nibbles, i.e. 32 bytes `0xaa`). -/
def dummyUserOpHashLeaf : HashV := .raw (List.replicate 32 0xaa)

/-- The constant placeholder ECDSA signature of
`getMultiUserOpDummySignature.ts` (65 bytes). -/
def dummyEcdsaSig : Bytes :=
  List.replicate 15 0xff ++ [0xf0] ++ List.replicate 16 0x00 ++ [0x7a]
    ++ List.replicate 31 0xaa ++ [0x1c]

/-- A token of the aggregate envelope: either a plain byte or one 32-byte
abstract digest (keccak outputs have no concrete bytes in this model, so the
envelope is a mixed byte/digest string). -/
inductive Tok where
  | byte (b : Nat)
  | hash (h : HashV)
deriving DecidableEq, Repr

/-- A 32-byte ABI word holding the number `n`, as envelope tokens. -/
def wordTok (n : Nat) : List Tok := (natBytesBE 32 n).map Tok.byte

/-- Embeds `encodeAbiParameters([bytes32, bytes32[]], [dummyUserOpHash, proof])`
(the external ABI encoder, collaborator (iii)): the static `bytes32` head, the
offset word of the dynamic array, then the array length and its elements. -/
def encodeAbiProof (h : HashV) (proof : List HashV) : List Tok :=
  [Tok.hash h] ++ wordTok 64 ++ wordTok proof.length ++ proof.map Tok.hash

/-- Embeds `getMultiUserOpDummySignature` (lines 9–51): the real user-operation hash
(computed by the external `getUserOperationHash` collaborator, hence an input
here) is placed first, `numOfUserOps - 1` filler leaves follow, a sorted-pair
Merkle tree is built, and the envelope is the placeholder ECDSA signature, the
root, and the ABI-encoded `(realHash, proof)` pair.  (For `numOfUserOps = 0`
the JavaScript `Array(-1)` throws; the claims only concern `numOfUserOps ≥ 1`.) -/
def getMultiUserOpDummySignatureM (userOpHash : HashV) (numOfUserOps : Nat) :
    List Tok :=
  let dummyLeaves := List.replicate (numOfUserOps - 1) dummyUserOpHashLeaf
  let leaves := userOpHash :: dummyLeaves
  let merkleRoot := rootOf leaves
  let merkleProof := proofForLeaf leaves userOpHash
  let encodedMerkleProof := encodeAbiProof userOpHash merkleProof
  dummyEcdsaSig.map Tok.byte ++ [Tok.hash merkleRoot] ++ encodedMerkleProof

/-!
## WebAuthn passkey validators and the ECDSA kernel smart account

`createPasskeyValidator` and `getPasskeyValidator` (WebAuthn variant) delegate
signing to a remote relay; the relay's verified responses (authenticator data,
client-data JSON, normalized `(r, s)`) are collaborator outputs and are
therefore inputs of the model.  `signerToEcdsaKernelSmartAccount` signs with a
local ECDSA key through the external `signMessage` collaborator.
-/

/-- Errors raised by the account/validator objects:
`SignTransactionNotSupportedBySmartAccount`, the remote relay's
non-verification failures, and the external `validateTypedData` collaborator's
rejection of malformed typed data. -/
inductive AccErr where
  | unsupportedOperation
  | authenticationFailed
  | invalidTypedData
deriving DecidableEq, Repr

/-- A raw transaction, as far as `signTransaction` inspects one (it throws
unconditionally, so the fields are never read). -/
structure Tx where
  toAddr : Bytes
  value : Nat
  data : Bytes

/-- The ASCII bytes of a string (all strings involved are ASCII). -/
def strBytes (s : String) : Bytes := s.data.map Char.toNat

/-- Round a byte count up to the next multiple of 32 (ABI padding). -/
def pad32 (n : Nat) : Nat := ((n + 31) / 32) * 32

/-- A dynamic ABI field padded on the right to a 32-byte boundary. -/
def rightPadded (b : Bytes) : Bytes :=
  b ++ List.replicate (pad32 b.length - b.length) 0

/-- Embeds `encodeAbiParameters` for the WebAuthn signature tuple
`(authenticatorData: bytes, clientDataJSON: string, responseTypeLocation:
uint256, r: uint256, s: uint256)` (external collaborator (iii), realised
byte-exactly per the ABI: five head words — two tail offsets and the three
static words — then the two length-prefixed, right-padded dynamic tails). -/
def encodeWebAuthnSignature (authenticatorData clientDataJSON : Bytes)
    (responseTypeLocation r s : Nat) : Bytes :=
  natBytesBE 32 160 ++ natBytesBE 32 (192 + pad32 authenticatorData.length) ++
    natBytesBE 32 responseTypeLocation ++ natBytesBE 32 r ++ natBytesBE 32 s ++
    natBytesBE 32 authenticatorData.length ++ rightPadded authenticatorData ++
    natBytesBE 32 clientDataJSON.length ++ rightPadded clientDataJSON

/-- The placeholder authenticator data of the passkey `getDummySignature`
(`0x` followed by 74 `f` nibbles: 37 bytes). -/
def webAuthnDummyAuthenticatorData : Bytes := List.replicate 37 0xff

/-- The placeholder client-data JSON of the passkey `getDummySignature`
(112 ASCII characters). -/
def webAuthnDummyClientDataJSON : Bytes :=
  strBytes ("\x7b\"type\":\"webauthn.get\",\"challenge\":\"aaaaaaaaaaaaaaaaaaaaaaaaaaaaaaaaaaaaaaaaaaa\",\"origin\":\"https://example.com\"\x7d")

/-- Embeds `getDummySignature` of `createPasskeyValidator` (part_001 lines 318–336):
the fixed placeholder tuple, ABI-encoded. -/
def createPasskeyDummySignature : Bytes :=
  encodeWebAuthnSignature webAuthnDummyAuthenticatorData
    webAuthnDummyClientDataJSON (2 ^ 256 - 1)
    11111111111111111111111111111111111111111111111111111111111111111111111111111
    22222222222222222222222222222222222222222222222222222222222222222222222222222

/-- Embeds `getDummySignature` of `getPasskeyValidator` (part_001 lines 614–632),
textually identical to the `createPasskeyValidator` one. -/
def getPasskeyDummySignature : Bytes :=
  encodeWebAuthnSignature webAuthnDummyAuthenticatorData
    webAuthnDummyClientDataJSON (2 ^ 256 - 1)
    11111111111111111111111111111111111111111111111111111111111111111111111111111
    22222222222222222222222222222222222222222222222222222222222222222222222222222

/-- One completed remote signing ceremony, as consumed by the passkey
`signMessage` path: the relay's `sign-verify` success flag and, when verified,
the authenticator data, the client-data JSON, the byte index before the
`"type"` field value (`findQuoteIndices(clientDataJSON).beforeType`) and the
lower-s-normalized signature components (`parseAndNormalizeSig`). -/
structure WebAuthnCeremony where
  verified : Bool
  authenticatorData : Bytes
  clientDataJSON : Bytes
  beforeType : Nat
  sigR : Nat
  sigS : Nat

/-- A typed-data signing request as the passkey `signTypedData` path consumes
it: `valid` is the outcome of the external viem `validateTypedData` check
(which throws on malformed input), and `hash` is the external `hashTypedData`
EIP-712 digest that is forwarded to the remote signing ceremony as the message
to sign. -/
structure TypedDataInput where
  valid : Bool
  hash : Bytes

/-- Embeds `signMessage` of the `createPasskeyValidator` passkey account (part_001
lines 135–230): fails `Signature not verified` when the relay's success flag is
false, otherwise returns the ABI-encoded WebAuthn signature tuple. -/
def createPasskeySignMessage (c : WebAuthnCeremony) : Except AccErr Bytes :=
  if c.verified then
    .ok (encodeWebAuthnSignature c.authenticatorData c.clientDataJSON
      c.beforeType c.sigR c.sigS)
  else
    .error .authenticationFailed

/-- Embeds `signMessage` of the `getPasskeyValidator` passkey account (part_001 lines
431–526), textually identical to the `createPasskeyValidator` one. -/
def getPasskeySignMessage (c : WebAuthnCeremony) : Except AccErr Bytes :=
  if c.verified then
    .ok (encodeWebAuthnSignature c.authenticatorData c.clientDataJSON
      c.beforeType c.sigR c.sigS)
  else
    .error .authenticationFailed

/-- Embeds `signUserOperation` of `createPasskeyValidator` (part_001 lines 300–317):
hashes the operation (external collaborator) and routes the hash through the
passkey `signMessage` ceremony, so its output bytes are the ceremony's
encoded tuple. -/
def createPasskeySignUserOperation (c : WebAuthnCeremony) (_op : UserOp) :
    Except AccErr Bytes :=
  createPasskeySignMessage c

/-- Embeds `signUserOperation` of `getPasskeyValidator` (part_001 lines 596–613),
textually identical to the `createPasskeyValidator` one. -/
def getPasskeySignUserOperation (c : WebAuthnCeremony) (_op : UserOp) :
    Except AccErr Bytes :=
  getPasskeySignMessage c

/-- Embeds `signTypedData` of the `createPasskeyValidator` passkey account
(part_001 lines 234–256): the typed data is validated by the external
`validateTypedData` collaborator (throwing on malformed input) and hashed by
the external `hashTypedData`; the hash is then signed through
`signMessage(client, { account, message: hash })`, i.e. the same remote
ceremony as the account's `signMessage`, whose outcome is returned. -/
def createPasskeySignTypedData (td : TypedDataInput) (c : WebAuthnCeremony) :
    Except AccErr Bytes :=
  if td.valid then createPasskeySignMessage c else .error .invalidTypedData

/-- Embeds `signTypedData` of the `getPasskeyValidator` passkey account
(part_001 lines 530–552), textually identical to the `createPasskeyValidator`
one. -/
def getPasskeySignTypedData (td : TypedDataInput) (c : WebAuthnCeremony) :
    Except AccErr Bytes :=
  if td.valid then getPasskeySignMessage c else .error .invalidTypedData

/-- Embeds `signTransaction` of the `createPasskeyValidator` passkey account
(part_001 lines 231–233): throws `SignTransactionNotSupportedBySmartAccount`
unconditionally. -/
def createPasskeySignTransaction (_tx : Tx) : Except AccErr Bytes :=
  .error .unsupportedOperation

/-- Embeds `signTransaction` of the `getPasskeyValidator` passkey account (part_001
lines 527–529): throws `SignTransactionNotSupportedBySmartAccount`
unconditionally. -/
def getPasskeySignTransaction (_tx : Tx) : Except AccErr Bytes :=
  .error .unsupportedOperation

/-- Embeds `isEnabled` of `createPasskeyValidator` (part_001 lines 338–343):
constantly `false`. -/
def createPasskeyIsEnabled (_kernelAccountAddress _selector : Bytes) : Bool :=
  false

/-- Embeds `isEnabled` of `getPasskeyValidator` (part_001 lines 634–639):
constantly `false`. -/
def getPasskeyIsEnabled (_kernelAccountAddress _selector : Bytes) : Bool :=
  false

/-- Embeds `signTransaction` of the account built by `signerToEcdsaKernelSmartAccount`
(part_002 lines 290–292): throws `SignTransactionNotSupportedBySmartAccount`
unconditionally. -/
def kernelAccountSignTransaction (_tx : Tx) : Except AccErr Bytes :=
  .error .unsupportedOperation

/-- Embeds `signMessage` of the account built by `signerToEcdsaKernelSmartAccount`
(part_002 lines 287–289): a pure delegation
`signMessage(client, { account: viemSigner, message })` — the collaborator's
ECDSA signature is returned unchanged, with no failure path of its own. -/
def kernelAccountSignMessage (collaboratorSignature : Bytes) : Bytes :=
  collaboratorSignature

/-- Embeds `signTypedData` of the account built by
`signerToEcdsaKernelSmartAccount` (part_002 lines 293–295): a pure delegation
`signTypedData(client, { account: viemSigner, ...typedData })` — the
collaborator's signature is returned unchanged, with no failure path of its
own. -/
def kernelAccountSignTypedData (collaboratorSignature : Bytes) : Bytes :=
  collaboratorSignature

/-- Embeds `signUserOperation` of `signerToEcdsaKernelSmartAccount` (part_002 lines
314–329): the external `signMessage` collaborator signs the operation hash
(its 65-byte ECDSA output is the input here) and the sudo mode prefix
`0x00000000` is prepended. -/
def kernelAccountSignUserOperation (ecdsaSignature : Bytes) : Bytes :=
  [0x00, 0x00, 0x00, 0x00] ++ ecdsaSignature

/-- Embeds `getDummySignature` of `signerToEcdsaKernelSmartAccount` (part_002 lines
372–375): a fixed 69-byte constant — the `0x00000000` sudo prefix followed by
the same 65 placeholder signature bytes as the multi-chain aggregator's
constant. -/
def kernelAccountDummySignature : Bytes :=
  [0x00, 0x00, 0x00, 0x00] ++
    (List.replicate 15 0xff ++ [0xf0] ++ List.replicate 16 0x00 ++ [0x7a]
      ++ List.replicate 31 0xaa ++ [0x1c])

/-- Claim C2's nonce key, stated from the spec sentence it quotes: the mode
byte is `ENABLE` exactly when a regular validator exists and is not yet enabled
for the action selector (the on-chain plugin-initialized flag is not
consulted), otherwise `DEFAULT`; the key is the big-endian integer of the
left-padded 24-byte concatenation.  Reference definition for the refinement
comparison against `getNonceKeyS` — deliberately written from the claim's
words, not from the source. -/
def getNonceKeySpecC2 (cfg : ManagerCfg) (accountAddress : Bytes) : Option Nat :=
  match activeValidator cfg with
  | none => none
  | some av =>
    let modeByte :=
      match cfg.regular with
      | some r =>
        if r.isEnabled accountAddress cfg.selector then VALIDATOR_MODE_DEFAULT
        else VALIDATOR_MODE_ENABLE
      | none => VALIDATOR_MODE_DEFAULT
    let typeByte :=
      match cfg.regular with
      | some r => VALIDATOR_TYPE_BYTE r.validatorType
      | none => VALIDATOR_TYPE_BYTE .sudo
    let key := modeByte :: typeByte :: av.identifier
      ++ [av.subNonceKey / 256, av.subNonceKey % 256]
    some (beNat (List.replicate (24 - key.length) 0 ++ key))

/-!
## Concrete fixtures

Closed instances used by witness and counterexample theorems: a secondary
validator that is not enabled anywhere, one that is enabled everywhere, a sudo
validator, chain accessors with and without the plugin-initialized flag, and a
sample operation.
-/

/-- A regular (secondary) validator whose on-chain enablement is `false`
everywhere; deterministic stand-in collaborator outputs. -/
def fixtureRegular : Validator where
  address := List.replicate 20 0x22
  validatorType := .secondary
  identifier := List.replicate 20 0x11
  subNonceKey := 0
  isEnabled := fun _ _ => false
  signUserOp := fun _ => [9, 9]
  signTypedDataFn := fun _ => [6, 6]
  dummySig := fun _ => [8, 8]

/-- A regular (secondary) validator whose on-chain enablement is `true`
everywhere. -/
def fixtureRegularEnabled : Validator where
  address := List.replicate 20 0x22
  validatorType := .secondary
  identifier := List.replicate 20 0x11
  subNonceKey := 0
  isEnabled := fun _ _ => true
  signUserOp := fun _ => [9, 9]
  signTypedDataFn := fun _ => [6, 6]
  dummySig := fun _ => [8, 8]

/-- A sudo (root) validator. -/
def fixtureSudo : Validator where
  address := List.replicate 20 0x33
  validatorType := .sudo
  identifier := List.replicate 20 0x44
  subNonceKey := 0
  isEnabled := fun _ _ => false
  signUserOp := fun _ => [5, 5]
  signTypedDataFn := fun _ => [7, 7]
  dummySig := fun _ => [4, 4]

/-- A chain accessor with the plugin-initialized flag clear. -/
def fixtureChain : ChainAccessor where
  chainId := 1
  metadataVersion := fun _ => none
  kernelV3Nonce := fun _ => 0
  pluginInitialized := fun _ _ => false

/-- A chain accessor reporting the plugin as already initialized on-chain. -/
def fixtureChainInit : ChainAccessor where
  chainId := 1
  metadataVersion := fun _ => none
  kernelV3Nonce := fun _ => 0
  pluginInitialized := fun _ _ => true

/-- A sample user operation. -/
def fixtureOp : UserOp where
  sender := [0xaa]
  callData := [1, 2, 3, 4, 5]

/-- A manager configuration with the given version and validators and fixed
action/validity parameters. -/
def fixtureCfg (v : EPVersion) (sud reg : Option Validator) : ManagerCfg where
  version := v
  sudoV := sud
  regular := reg
  selector := [1, 2, 3, 4]
  executor := [0xee]
  validUntil := 10
  validAfter := 5
  kernelVersionParam := 61

/-- A completed, verified WebAuthn ceremony whose payload sizes match the
dummy signature's placeholders. -/
def fixtureCeremony : WebAuthnCeremony where
  verified := true
  authenticatorData := List.replicate 37 0xff
  clientDataJSON := webAuthnDummyClientDataJSON
  beforeType := 0
  sigR := 1
  sigS := 2

/-- A sample raw transaction. -/
def fixtureTx : Tx where
  toAddr := List.replicate 20 0x55
  value := 0
  data := []

/-- A well-formed typed-data signing request. -/
def fixtureTypedData : TypedDataInput where
  valid := true
  hash := List.replicate 32 0x66

/-!
## Supporting lemmas for the sorted-pair Merkle construction
-/

theorem Ordering.then_eq_eq_iff (o p : Ordering) :
    o.then p = .eq ↔ o = .eq ∧ p = .eq := by
  cases o <;> simp [Ordering.then]

theorem Ordering.then_swap (o p : Ordering) :
    (o.then p).swap = o.swap.then p.swap := by
  cases o <;> simp [Ordering.then, Ordering.swap]

theorem compare_nat_eq_iff (m n : Nat) : compare m n = .eq ↔ m = n := by
  rcases Nat.lt_trichotomy m n with h | h | h
  · simp [Nat.compare_eq_lt.2 h, Nat.ne_of_lt h]
  · simp [h, Nat.compare_eq_eq.2 rfl]
  · simp [Nat.compare_eq_gt.2 h, (Nat.ne_of_lt h).symm]

theorem compare_nat_swap (m n : Nat) : (compare m n).swap = compare n m := by
  rcases Nat.lt_trichotomy m n with h | h | h
  · simp [Nat.compare_eq_lt.2 h, Nat.compare_eq_gt.2 h, Ordering.swap]
  · simp [h, Nat.compare_eq_eq.2 rfl, Ordering.swap]
  · simp [Nat.compare_eq_gt.2 h, Nat.compare_eq_lt.2 h, Ordering.swap]

theorem cmpBytes_eq_iff : ∀ a b : Bytes, cmpBytes a b = .eq ↔ a = b := by
  intro a
  induction a with
  | nil => intro b; cases b <;> simp [cmpBytes]
  | cons x xs ih =>
    intro b
    cases b with
    | nil => simp [cmpBytes]
    | cons y ys =>
      simp [cmpBytes, Ordering.then_eq_eq_iff, compare_nat_eq_iff, ih]

theorem cmpBytes_swap : ∀ a b : Bytes, (cmpBytes a b).swap = cmpBytes b a := by
  intro a
  induction a with
  | nil => intro b; cases b <;> simp [cmpBytes, Ordering.swap]
  | cons x xs ih =>
    intro b
    cases b with
    | nil => simp [cmpBytes, Ordering.swap]
    | cons y ys =>
      simp [cmpBytes, Ordering.then_swap, compare_nat_swap, ih]

theorem hcmp_eq_iff : ∀ a b : HashV, hcmp a b = .eq ↔ a = b := by
  intro a
  induction a with
  | raw xs =>
    intro b
    cases b <;> simp [hcmp, cmpBytes_eq_iff]
  | kec l r ihl ihr =>
    intro b
    cases b with
    | raw _ => simp [hcmp]
    | kec c d => simp [hcmp, Ordering.then_eq_eq_iff, ihl, ihr]

theorem hcmp_swap : ∀ a b : HashV, (hcmp a b).swap = hcmp b a := by
  intro a
  induction a with
  | raw xs =>
    intro b
    cases b with
    | raw ys => simpa [hcmp] using cmpBytes_swap xs ys
    | kec c d => simp [hcmp, Ordering.swap]
  | kec l r ihl ihr =>
    intro b
    cases b with
    | raw _ => simp [hcmp, Ordering.swap]
    | kec c d => simp [hcmp, Ordering.then_swap, ihl, ihr]

/-- Sorted-pair combination is order-independent — the property the
`sortPairs: true` option exists to provide. -/
theorem combine_comm (a b : HashV) : combine a b = combine b a := by
  unfold combine
  rcases h : hcmp a b with hlt | heq | hgt
  · have hba : hcmp b a = .gt := by
      rw [← hcmp_swap a b, h]; rfl
    rw [hba]
  · have hab : a = b := (hcmp_eq_iff a b).1 h
    subst hab
    rw [h]
  · have hba : hcmp b a = .lt := by
      rw [← hcmp_swap a b, h]; rfl
    rw [hba]

theorem layerUp_length : ∀ l : List HashV, (layerUp l).length = (l.length + 1) / 2 := by
  intro l
  induction l using layerUp.induct with
  | case1 => simp [layerUp]
  | case2 x => simp [layerUp]
  | case3 a b rest ih => simp [layerUp, ih]; omega

/-- The parent layer at index `k` holds the sorted-pair combination of children
`2k` and `2k+1`, or the promoted child `2k` when it has no sibling. -/
theorem layerUp_getD (d : HashV) :
    ∀ (l : List HashV) (k : Nat), 2 * k < l.length →
      (layerUp l).getD k d =
        if 2 * k + 1 < l.length then
          combine (l.getD (2 * k) d) (l.getD (2 * k + 1) d)
        else l.getD (2 * k) d := by
  intro l
  induction l using layerUp.induct with
  | case1 => intro k hk; simp at hk
  | case2 x =>
    intro k hk
    have hk0 : k = 0 := by simp at hk; omega
    subst hk0
    simp [layerUp]
  | case3 a b rest ih =>
    intro k hk
    cases k with
    | zero =>
      simp [layerUp]
    | succ k' =>
      simp only [List.length_cons] at hk
      have hrest : 2 * k' < rest.length := by omega
      have e0 : 2 * (k' + 1) = 2 * k' + 1 + 1 := by omega
      rw [e0]
      simp only [layerUp, List.getD_cons_succ, List.length_cons]
      rw [ih k' hrest]
      by_cases hc : 2 * k' + 1 < rest.length
      · rw [if_pos hc, if_pos (by omega)]
      · rw [if_neg hc, if_neg (by omega)]

/-- Soundness of the `merkletreejs` inclusion proof: folding the collected
siblings onto any leaf with the sorted-pair combination step reproduces the
root.  This is the round-trip property the spec requires of the aggregation
scheme. -/
theorem processProof_buildLayersAux :
    ∀ (fuel : Nat) (l : List HashV) (idx : Nat), l.length ≤ fuel + 1 →
      idx < l.length →
      processProof (l.getD idx (.raw [])) (proofAux (buildLayersAux fuel l) idx)
        = rootOfAux fuel l := by
  intro fuel
  induction fuel with
  | zero =>
    intro l idx hlen hidx
    match l, hlen, hidx with
    | [x], _, hidx =>
      have hidx0 : idx = 0 := by simp at hidx; omega
      subst hidx0
      simp [buildLayersAux, proofAux, processProof, rootOfAux]
  | succ fuel ih =>
    intro l idx hlen hidx
    by_cases h1 : l.length ≤ 1
    · match l, h1, hidx with
      | [x], _, hidx =>
        have hidx0 : idx = 0 := by simp at hidx; omega
        subst hidx0
        simp [buildLayersAux, proofAux, processProof, rootOfAux]
    · have hlay : (layerUp l).length = (l.length + 1) / 2 := layerUp_length l
      have hlen2 : (layerUp l).length ≤ fuel + 1 := by omega
      have hidx2 : idx / 2 < (layerUp l).length := by omega
      have hmain := ih (layerUp l) (idx / 2) hlen2 hidx2
      simp only [processProof] at hmain
      simp only [buildLayersAux, rootOfAux, proofAux, processProof, h1,
        if_false, ite_false]
      rw [List.foldl_append]
      rcases Nat.mod_two_eq_zero_or_one idx with hpar | hpar
      · rw [if_neg (show ¬ idx % 2 = 1 by omega)]
        have hidx_eq : 2 * (idx / 2) = idx := by omega
        by_cases hc : idx + 1 < l.length
        · rw [if_pos hc]
          have hcomb : List.foldl combine (l.getD idx (.raw []))
              [l.getD (idx + 1) (.raw [])] = (layerUp l).getD (idx / 2) (.raw []) := by
            rw [layerUp_getD (.raw []) l (idx / 2) (by omega),
              if_pos (by omega), hidx_eq]
            rfl
          rw [hcomb, hmain]
        · rw [if_neg hc]
          have hcomb : List.foldl combine (l.getD idx (.raw [])) []
              = (layerUp l).getD (idx / 2) (.raw []) := by
            rw [layerUp_getD (.raw []) l (idx / 2) (by omega),
              if_neg (by omega), hidx_eq]
            rfl
          rw [hcomb, hmain]
      · rw [if_pos hpar]
        have hidx_eq : 2 * (idx / 2) + 1 = idx := by omega
        have hm1 : idx - 1 = 2 * (idx / 2) := by omega
        rw [if_pos (show idx - 1 < l.length by omega)]
        have hcomb : List.foldl combine (l.getD idx (.raw []))
            [l.getD (idx - 1) (.raw [])] = (layerUp l).getD (idx / 2) (.raw []) := by
          rw [layerUp_getD (.raw []) l (idx / 2) (by omega),
            if_pos (by omega), hm1, hidx_eq]
          exact combine_comm _ _
        rw [hcomb, hmain]

/-- The inclusion proof produced for the head leaf verifies against the root. -/
theorem processProof_proofForLeaf_head (h : HashV) (rest : List HashV) :
    processProof h (proofForLeaf (h :: rest) h) = rootOf (h :: rest) := by
  have hidx : idxOfLeaf h (h :: rest) = 0 := by simp [idxOfLeaf]
  have hmain := processProof_buildLayersAux (h :: rest).length (h :: rest) 0
    (by omega) (by simp)
  simpa [proofForLeaf, buildLayers, rootOf, hidx] using hmain

/-- A combined node is never a `raw` digest (the ideal hash introduces a fresh
constructor). -/
theorem combine_ne_raw (a c : HashV) (bs : Bytes) : combine a c ≠ .raw bs := by
  unfold combine
  rcases hcmp a c <;> simp

/-!
## Claim theorems
-/

/-- Claim C5: for every user-operation hash and fan-out count `N ≥ 1`, the
multi-chain dummy aggregate signature equals `signature || merkleRoot ||
abiEncode(realLeafHash, proof[])`, where the sorted-pair Merkle tree is built
over exactly `N` leaves — the real hash plus `N − 1` filler leaves all equal to
the fixed placeholder — and the embedded proof is the tree's inclusion proof
for the real leaf (in particular it verifies against the embedded root by
sorted-pair processing). -/
theorem c5_multichain_dummy_signature (h : HashV) (n : Nat) (hn : 1 ≤ n) :
    (h :: List.replicate (n - 1) dummyUserOpHashLeaf).length = n ∧
    getMultiUserOpDummySignatureM h n =
      dummyEcdsaSig.map Tok.byte
        ++ [Tok.hash (rootOf (h :: List.replicate (n - 1) dummyUserOpHashLeaf))]
        ++ encodeAbiProof h
            (proofForLeaf (h :: List.replicate (n - 1) dummyUserOpHashLeaf) h) ∧
    processProof h
        (proofForLeaf (h :: List.replicate (n - 1) dummyUserOpHashLeaf) h)
      = rootOf (h :: List.replicate (n - 1) dummyUserOpHashLeaf) := by
  refine ⟨by simp; omega, rfl, processProof_proofForLeaf_head h _⟩

/-- Witness for C5 at the concrete hash `0xbb…bb` and fan-out `3`. -/
theorem c5_multichain_dummy_signature_witness :
    1 ≤ 3 ∧
    ((HashV.raw (List.replicate 32 0xbb)
        :: List.replicate (3 - 1) dummyUserOpHashLeaf).length = 3 ∧
    getMultiUserOpDummySignatureM (HashV.raw (List.replicate 32 0xbb)) 3 =
      dummyEcdsaSig.map Tok.byte
        ++ [Tok.hash (rootOf (HashV.raw (List.replicate 32 0xbb)
              :: List.replicate (3 - 1) dummyUserOpHashLeaf))]
        ++ encodeAbiProof (HashV.raw (List.replicate 32 0xbb))
            (proofForLeaf (HashV.raw (List.replicate 32 0xbb)
              :: List.replicate (3 - 1) dummyUserOpHashLeaf)
              (HashV.raw (List.replicate 32 0xbb))) ∧
    processProof (HashV.raw (List.replicate 32 0xbb))
        (proofForLeaf (HashV.raw (List.replicate 32 0xbb)
          :: List.replicate (3 - 1) dummyUserOpHashLeaf)
          (HashV.raw (List.replicate 32 0xbb)))
      = rootOf (HashV.raw (List.replicate 32 0xbb)
          :: List.replicate (3 - 1) dummyUserOpHashLeaf)) :=
  ⟨by decide,
    c5_multichain_dummy_signature (HashV.raw (List.replicate 32 0xbb)) 3 (by decide)⟩

/-- Claim C7 counterexample: at fan-out `N = 3` with the concrete real hash
`0xbb…bb`, the aggregator's inclusion proof for the real leaf does not have
length 1 (it has length 2: `merkletreejs` promotes the unpaired third leaf
instead of padding the leaf set to a power of two). -/
theorem c7_three_leaf_proof_counterexample :
    (proofForLeaf (HashV.raw (List.replicate 32 0xbb)
        :: List.replicate (3 - 1) dummyUserOpHashLeaf)
        (HashV.raw (List.replicate 32 0xbb))).length ≠ 1 := by
  decide

/-- Claim C7 as amended: for fan-out `N = 3` the aggregator's leaf set is
`[realHash, filler, filler]`, the Merkle root is distinct from `realHash`, and
the inclusion proof for the real leaf has length exactly 2 (one filler sibling
at the leaf level and the promoted filler leaf one level up): the tree promotes
the odd leaf rather than padding to a power of two. -/
theorem c7_three_leaf_tree_amended (b : Bytes) :
    (HashV.raw b :: List.replicate (3 - 1) dummyUserOpHashLeaf)
        = [HashV.raw b, dummyUserOpHashLeaf, dummyUserOpHashLeaf] ∧
    rootOf [HashV.raw b, dummyUserOpHashLeaf, dummyUserOpHashLeaf] ≠ HashV.raw b ∧
    (proofForLeaf [HashV.raw b, dummyUserOpHashLeaf, dummyUserOpHashLeaf]
        (HashV.raw b)).length = 2 := by
  refine ⟨rfl, ?_, ?_⟩
  · have hshape : rootOf [HashV.raw b, dummyUserOpHashLeaf, dummyUserOpHashLeaf]
        = combine (combine (HashV.raw b) dummyUserOpHashLeaf) dummyUserOpHashLeaf := by
      simp [rootOf, rootOfAux, layerUp]
    rw [hshape]
    exact combine_ne_raw _ _ _
  · simp [proofForLeaf, idxOfLeaf, buildLayers, buildLayersAux, layerUp, proofAux]

/-- Claim C1: for every v0.6 plugin manager and every user operation,
`signUserOperation` selects the mode and envelope as specified — with no
regular validator the envelope is `0x00000000 || userOpSignature` (SUDO); with
a regular validator that `isEnabled(account, callData[0:4])` reports enabled it
is `0x00000001 || userOpSignature` (PLUGIN); otherwise it is `0x00000002`
followed by the encoded enable data and the user-operation signature
(ENABLE). -/
theorem c1_v06_envelope_selection (cfg : ManagerCfg) (chain : ChainAccessor)
    (st : EnableSigState) (op : UserOp) (h6 : cfg.version = .v06) :
    (∀ s, cfg.regular = none → cfg.sudoV = some s →
      signUserOperationS cfg chain st op
        = .ok (ValidatorModeSudo ++ s.signUserOp op, st, 0)) ∧
    (∀ r, cfg.regular = some r →
      r.isEnabled op.sender (op.callData.take 4) = true →
      signUserOperationS cfg chain st op
        = .ok (ValidatorModePlugin ++ r.signUserOp op, st, 0)) ∧
    (∀ r e st2 n, cfg.regular = some r →
      r.isEnabled op.sender (op.callData.take 4) = false →
      getPluginEnableSignatureS cfg chain st op.sender = .ok (e, st2, n) →
      signUserOperationS cfg chain st op
        = .ok (getEncodedPluginsDataV1 op.sender cfg.validUntil cfg.validAfter
            r.address cfg.executor e ++ r.signUserOp op, st2, n)) := by
  refine ⟨?_, ?_, ?_⟩
  · intro s hreg hsud
    simp [signUserOperationS, activeValidator, getSignatureDataS, h6, hreg, hsud]
  · intro r hreg hen
    simp [signUserOperationS, activeValidator, getSignatureDataS, h6, hreg, hen]
  · intro r e st2 n hreg hen hsig
    simp [signUserOperationS, activeValidator, getSignatureDataS, h6, hreg, hen,
      hsig, hexFalsy]

/-- Witness for C1 at concrete fixtures, one instantiation per mode. -/
theorem c1_v06_envelope_selection_witness :
    ((fixtureCfg .v06 (some fixtureSudo) none).version = .v06 ∧
      signUserOperationS (fixtureCfg .v06 (some fixtureSudo) none) fixtureChain
          none fixtureOp
        = .ok (ValidatorModeSudo ++ fixtureSudo.signUserOp fixtureOp, none, 0)) ∧
    (signUserOperationS (fixtureCfg .v06 (some fixtureSudo)
          (some fixtureRegularEnabled)) fixtureChain none fixtureOp
        = .ok (ValidatorModePlugin ++ fixtureRegularEnabled.signUserOp fixtureOp,
            none, 0)) ∧
    (signUserOperationS (fixtureCfg .v06 (some fixtureSudo) (some fixtureRegular))
          fixtureChain (some [3, 3]) fixtureOp
        = .ok (getEncodedPluginsDataV1 fixtureOp.sender
            (fixtureCfg .v06 (some fixtureSudo) (some fixtureRegular)).validUntil
            (fixtureCfg .v06 (some fixtureSudo) (some fixtureRegular)).validAfter
            fixtureRegular.address
            (fixtureCfg .v06 (some fixtureSudo) (some fixtureRegular)).executor
            [3, 3] ++ fixtureRegular.signUserOp fixtureOp, some [3, 3], 0)) :=
  ⟨⟨rfl, (c1_v06_envelope_selection _ fixtureChain none fixtureOp rfl).1
      fixtureSudo rfl rfl⟩,
    (c1_v06_envelope_selection _ fixtureChain none fixtureOp rfl).2.1
      fixtureRegularEnabled rfl rfl,
    (c1_v06_envelope_selection _ fixtureChain (some [3, 3]) fixtureOp rfl).2.2
      fixtureRegular [3, 3] (some [3, 3]) 0 rfl rfl rfl⟩

/-- Claim C8: for every plugin manager constructed with a pre-supplied
`pluginEnableSignature`, every `getPluginEnableSignature` call returns that
value unchanged, performs no signing ceremony (the ceremony count is 0), and —
since the equation holds for every configuration, in particular those with no
sudo or regular validator at all — performs no sudo- or regular-validator
checks. -/
theorem c8_presupplied_enable_signature (cfg : ManagerCfg) (chain : ChainAccessor)
    (e accountAddress : Bytes) :
    getPluginEnableSignatureS cfg chain (some e) accountAddress
      = .ok (e, some e, 0) := rfl

/-- Claim C3 counterexample: on a concrete v0.7 manager (sudo and regular set,
nothing pre-supplied), a successful `getPluginEnableSignature` call leaves the
cache slot empty (`none`) and performs one ceremony; feeding the returned state
back into a subsequent call re-runs the identical computation, so the
subsequent call also performs one ceremony rather than the zero the claim
requires. -/
theorem c3_enable_signature_cache_counterexample :
    getPluginEnableSignatureS (fixtureCfg .v07 (some fixtureSudo)
        (some fixtureRegular)) fixtureChain none [0xaa]
      = .ok ([7, 7], none, 1) ∧
    ¬ ∃ sig, getPluginEnableSignatureS (fixtureCfg .v07 (some fixtureSudo)
        (some fixtureRegular)) fixtureChain none [0xaa]
      = .ok (sig, none, 0) := by
  constructor
  · rfl
  · rintro ⟨sig, h⟩
    rw [show getPluginEnableSignatureS (fixtureCfg .v07 (some fixtureSudo)
        (some fixtureRegular)) fixtureChain none [0xaa] = .ok ([7, 7], none, 1)
      from rfl] at h
    simp at h

/-- Claim C3 as amended: on v0.6 the first successful call writes the cache and
every subsequent call returns the cached signature with zero further
ceremonies; on v0.7 the result is never cached — with no pre-supplied
signature, every call (first or subsequent) performs exactly one sudo
`signTypedData` ceremony and leaves the slot empty. -/
theorem c3_enable_signature_cache_amended (cfg : ManagerCfg)
    (chain : ChainAccessor) (st : EnableSigState) (acc : Bytes) :
    (∀ sig st2 n, cfg.version = .v06 →
      getPluginEnableSignatureS cfg chain st acc = .ok (sig, st2, n) →
      getPluginEnableSignatureS cfg chain st2 acc = .ok (sig, st2, 0)) ∧
    (∀ s r, cfg.version = .v07 → cfg.sudoV = some s → cfg.regular = some r →
      st = none →
      getPluginEnableSignatureS cfg chain st acc
        = .ok (s.signTypedDataFn (TypedData.enableV2 acc chain.chainId
            (chain.metadataVersion acc) cfg.selector cfg.executor r.address
            (chain.kernelV3Nonce acc)), none, 1)) := by
  constructor
  · intro sig st2 n h6 hsig
    cases st with
    | some s0 =>
      simp [getPluginEnableSignatureS] at hsig
      obtain ⟨h1, h2, _⟩ := hsig
      subst h1; subst h2
      rfl
    | none =>
      cases hsud : cfg.sudoV with
      | none => simp [getPluginEnableSignatureS, hsud] at hsig
      | some s =>
        cases hreg : cfg.regular with
        | none => simp [getPluginEnableSignatureS, hsud, hreg] at hsig
        | some r =>
          simp [getPluginEnableSignatureS, hsud, hreg, h6] at hsig
          obtain ⟨h1, h2, _⟩ := hsig
          subst h1; subst h2
          rfl
  · intro s r h7 hsud hreg hst
    subst hst
    simp [getPluginEnableSignatureS, hsud, hreg, h7]

/-- Witness for the amended C3 at concrete fixtures: a second v0.6 call after a
successful first one returns the cached value with zero ceremonies, and a v0.7
call with an empty slot performs exactly one ceremony. -/
theorem c3_enable_signature_cache_amended_witness :
    getPluginEnableSignatureS (fixtureCfg .v06 (some fixtureSudo)
        (some fixtureRegular)) fixtureChain (some [7, 7]) [0xaa]
      = .ok ([7, 7], some [7, 7], 0) ∧
    getPluginEnableSignatureS (fixtureCfg .v07 (some fixtureSudo)
        (some fixtureRegular)) fixtureChain none [0xaa]
      = .ok (fixtureSudo.signTypedDataFn (TypedData.enableV2 [0xaa]
          fixtureChain.chainId (fixtureChain.metadataVersion [0xaa])
          (fixtureCfg .v07 (some fixtureSudo) (some fixtureRegular)).selector
          (fixtureCfg .v07 (some fixtureSudo) (some fixtureRegular)).executor
          fixtureRegular.address (fixtureChain.kernelV3Nonce [0xaa])), none, 1) :=
  ⟨(c3_enable_signature_cache_amended (fixtureCfg .v06 (some fixtureSudo)
        (some fixtureRegular)) fixtureChain none [0xaa]).1
      [7, 7] (some [7, 7]) 1 rfl rfl,
    (c3_enable_signature_cache_amended (fixtureCfg .v07 (some fixtureSudo)
        (some fixtureRegular)) fixtureChain none [0xaa]).2
      fixtureSudo fixtureRegular rfl rfl rfl rfl⟩

/-- Claim C4 counterexample: a manager constructed with the pre-supplied empty
enable signature `0x` (zero bytes) is in ENABLE mode (regular validator set and
not enabled), yet both the v0.6 and the v0.7 envelope assembly succeed and
return an envelope embedding the empty enable signature instead of failing with
an `EnableSignatureMissing` error. -/
theorem c4_enable_signature_missing_counterexample :
    signUserOperationS (fixtureCfg .v06 (some fixtureSudo) (some fixtureRegular))
        fixtureChain (some []) fixtureOp
      = .ok (getEncodedPluginsDataV1 fixtureOp.sender 10 5 fixtureRegular.address
          [0xee] [] ++ [9, 9], some [], 0) ∧
    signUserOperationS (fixtureCfg .v07 (some fixtureSudo) (some fixtureRegular))
        fixtureChain (some []) fixtureOp
      = .ok (getEncodedPluginsDataV2 fixtureOp.sender [1, 2, 3, 4] [0xee]
          fixtureRegular.address [] [9, 9], some [], 0) := by
  constructor <;> rfl

/-- Claim C4 as amended: the enable-signature guard exists only on the v0.6
path and tests JavaScript string falsiness, which no hex value — including the
empty byte string `0x` — satisfies; in ENABLE mode with any pre-supplied enable
signature (empty or not) both versions return the envelope embedding it, and
neither version ever fails with `EnableSignatureMissing` on this path. -/
theorem c4_enable_signature_missing_amended (cfg : ManagerCfg)
    (chain : ChainAccessor) (e : Bytes) (op : UserOp) :
    (∀ r, cfg.version = .v06 → cfg.regular = some r →
      r.isEnabled op.sender (op.callData.take 4) = false →
      signUserOperationS cfg chain (some e) op
        = .ok (getEncodedPluginsDataV1 op.sender cfg.validUntil cfg.validAfter
            r.address cfg.executor e ++ r.signUserOp op, some e, 0)) ∧
    (∀ r, cfg.version = .v07 → cfg.regular = some r →
      r.isEnabled op.sender cfg.selector = false →
      chain.pluginInitialized op.sender r.address = false →
      signUserOperationS cfg chain (some e) op
        = .ok (getEncodedPluginsDataV2 op.sender cfg.selector cfg.executor
            r.address e (r.signUserOp op), some e, 0)) := by
  constructor
  · intro r h6 hreg hen
    simp [signUserOperationS, activeValidator, getSignatureDataS,
      getPluginEnableSignatureS, h6, hreg, hen, hexFalsy]
  · intro r h7 hreg hen hinit
    simp [signUserOperationS, activeValidator, getSignatureDataS,
      getPluginEnableSignatureS, h7, hreg, hen, hinit]

/-- Witness for the amended C4 with the empty pre-supplied signature `0x`. -/
theorem c4_enable_signature_missing_amended_witness :
    signUserOperationS (fixtureCfg .v06 (some fixtureSudo) (some fixtureRegular))
        fixtureChain (some []) fixtureOp
      = .ok (getEncodedPluginsDataV1 fixtureOp.sender
          (fixtureCfg .v06 (some fixtureSudo) (some fixtureRegular)).validUntil
          (fixtureCfg .v06 (some fixtureSudo) (some fixtureRegular)).validAfter
          fixtureRegular.address
          (fixtureCfg .v06 (some fixtureSudo) (some fixtureRegular)).executor
          [] ++ fixtureRegular.signUserOp fixtureOp, some [], 0) ∧
    signUserOperationS (fixtureCfg .v07 (some fixtureSudo) (some fixtureRegular))
        fixtureChain (some []) fixtureOp
      = .ok (getEncodedPluginsDataV2 fixtureOp.sender
          (fixtureCfg .v07 (some fixtureSudo) (some fixtureRegular)).selector
          (fixtureCfg .v07 (some fixtureSudo) (some fixtureRegular)).executor
          fixtureRegular.address [] (fixtureRegular.signUserOp fixtureOp),
          some [], 0) :=
  ⟨(c4_enable_signature_missing_amended (fixtureCfg .v06 (some fixtureSudo)
        (some fixtureRegular)) fixtureChain [] fixtureOp).1
      fixtureRegular rfl rfl rfl,
    (c4_enable_signature_missing_amended (fixtureCfg .v07 (some fixtureSudo)
        (some fixtureRegular)) fixtureChain [] fixtureOp).2
      fixtureRegular rfl rfl rfl rfl⟩

/-- Claim C2 counterexample: on a concrete v0.7 manager whose regular validator
is not enabled for the action selector but whose plugin-initialized flag is set
on-chain, the code derives mode `DEFAULT` while the claim's rule (`ENABLE`
exactly when a regular validator exists and is not yet enabled for the action
selector) derives `ENABLE`, so the returned nonce key differs from the claim's
value. -/
theorem c2_nonce_key_mode_counterexample :
    getNonceKeyS (fixtureCfg .v07 (some fixtureSudo) (some fixtureRegular))
        fixtureChainInit [0xaa]
      = .ok (beNat (0x00 :: 0x01 :: List.replicate 20 0x11 ++ [0, 0])) ∧
    getNonceKeySpecC2 (fixtureCfg .v07 (some fixtureSudo) (some fixtureRegular))
        [0xaa]
      = some (beNat (0x01 :: 0x01 :: List.replicate 20 0x11 ++ [0, 0])) ∧
    beNat (0x00 :: 0x01 :: List.replicate 20 0x11 ++ [0, 0])
      ≠ beNat (0x01 :: 0x01 :: List.replicate 20 0x11 ++ [0, 0]) := by
  refine ⟨rfl, rfl, by decide⟩

/-- Claim C2 as amended: for every v0.7 plugin manager, `getNonceKey` returns
the big-endian integer of the 24-byte concatenation `mode(1) ||
validatorType(1) || activeValidatorIdentifier(20) || subKey(2, left-padded)`,
where mode is `ENABLE` exactly when a regular validator exists and is neither
enabled for the action selector nor already initialized on the account
(on-chain plugin-initialized flag), and otherwise `DEFAULT`. -/
theorem c2_nonce_key_amended (cfg : ManagerCfg) (chain : ChainAccessor)
    (acc : Bytes) (av : Validator) (h7 : cfg.version = .v07)
    (hav : activeValidator cfg = some av)
    (hid : av.identifier.length = 20) (hsub : av.subNonceKey < 2 ^ 16) :
    getNonceKeyS cfg chain acc
      = .ok (beNat ((if (match cfg.regular with
            | some r => !(r.isEnabled acc cfg.selector
                || chain.pluginInitialized acc r.address)
            | none => false)
          then VALIDATOR_MODE_ENABLE else VALIDATOR_MODE_DEFAULT)
          :: (match cfg.regular with
            | some r => VALIDATOR_TYPE_BYTE r.validatorType
            | none => VALIDATOR_TYPE_BYTE .sudo)
          :: av.identifier ++ [av.subNonceKey / 256, av.subNonceKey % 256])) := by
  have hsub65 : av.subNonceKey < 65536 := by simpa using hsub
  cases hreg : cfg.regular with
  | none =>
    simp [getNonceKeyS, hav, h7, hreg, hsub65, List.length_append, hid]
  | some r =>
    cases hen : r.isEnabled acc cfg.selector || chain.pluginInitialized acc r.address with
    | true =>
      simp [getNonceKeyS, hav, h7, hreg, hen, hsub65, List.length_append, hid]
    | false =>
      simp [getNonceKeyS, hav, h7, hreg, hen, hsub65, List.length_append, hid]

/-- Witness for the amended C2 at a concrete v0.7 manager in ENABLE mode. -/
theorem c2_nonce_key_amended_witness :
    getNonceKeyS (fixtureCfg .v07 (some fixtureSudo) (some fixtureRegular))
        fixtureChain [0xaa]
      = .ok (beNat ((if (match (fixtureCfg .v07 (some fixtureSudo)
              (some fixtureRegular)).regular with
            | some r => !(r.isEnabled [0xaa]
                  (fixtureCfg .v07 (some fixtureSudo) (some fixtureRegular)).selector
                || fixtureChain.pluginInitialized [0xaa] r.address)
            | none => false)
          then VALIDATOR_MODE_ENABLE else VALIDATOR_MODE_DEFAULT)
          :: (match (fixtureCfg .v07 (some fixtureSudo)
              (some fixtureRegular)).regular with
            | some r => VALIDATOR_TYPE_BYTE r.validatorType
            | none => VALIDATOR_TYPE_BYTE .sudo)
          :: fixtureRegular.identifier
          ++ [fixtureRegular.subNonceKey / 256, fixtureRegular.subNonceKey % 256])) :=
  c2_nonce_key_amended (fixtureCfg .v07 (some fixtureSudo) (some fixtureRegular))
    fixtureChain [0xaa] fixtureRegular rfl rfl (by decide) (by decide)

theorem natBytesBE_length (w : Nat) : ∀ n, (natBytesBE w n).length = w := by
  induction w with
  | zero => intro n; rfl
  | succ w ih => intro n; simp [natBytesBE, ih]

theorem le_pad32 (n : Nat) : n ≤ pad32 n := by
  unfold pad32
  omega

theorem rightPadded_length (b : Bytes) : (rightPadded b).length = pad32 b.length := by
  have := le_pad32 b.length
  simp [rightPadded]
  omega

/-- The byte length of the encoded WebAuthn signature tuple: five head words,
two length words, and the two padded dynamic tails. -/
theorem encodeWebAuthnSignature_length (a j : Bytes) (o r s : Nat) :
    (encodeWebAuthnSignature a j o r s).length
      = 224 + pad32 a.length + pad32 j.length := by
  simp [encodeWebAuthnSignature, natBytesBE_length, rightPadded_length]
  omega

set_option maxRecDepth 8192 in
/-- Claim C6 counterexample: a verified WebAuthn ceremony whose client-data
JSON is 32 characters longer than the placeholder (crossing one 32-byte ABI
padding boundary) produces a genuine `signUserOperation` signature of 448
bytes, while `getDummySignature` is 416 bytes — the dummy length does not match
the genuine length for all inputs. -/
theorem c6_dummy_signature_length_counterexample :
    createPasskeySignUserOperation
        { verified := true, authenticatorData := List.replicate 37 0xff,
          clientDataJSON := webAuthnDummyClientDataJSON ++ List.replicate 32 0x20,
          beforeType := 0, sigR := 1, sigS := 2 } fixtureOp
      = .ok (encodeWebAuthnSignature (List.replicate 37 0xff)
          (webAuthnDummyClientDataJSON ++ List.replicate 32 0x20) 0 1 2) ∧
    (encodeWebAuthnSignature (List.replicate 37 0xff)
        (webAuthnDummyClientDataJSON ++ List.replicate 32 0x20) 0 1 2).length
      ≠ createPasskeyDummySignature.length := by
  refine ⟨rfl, by decide⟩

set_option maxRecDepth 8192 in
/-- Claim C6 as amended: the ECDSA kernel account's dummy signature (69 bytes)
always matches the genuine signature length (4-byte sudo prefix plus the
collaborator's 65-byte ECDSA signature); for the WebAuthn passkey validators
(both variants) the genuine signature of a verified ceremony matches the
416-byte dummy exactly when the ABI-padded sizes of its authenticator data and
client-data JSON sum to 192 bytes, as the placeholder's do — not for all
inputs. -/
theorem c6_dummy_signature_length_amended (op : UserOp) :
    (∀ sig : Bytes, sig.length = 65 →
      (kernelAccountSignUserOperation sig).length
        = kernelAccountDummySignature.length) ∧
    (∀ c : WebAuthnCeremony, c.verified = true →
      createPasskeySignUserOperation c op
        = .ok (encodeWebAuthnSignature c.authenticatorData c.clientDataJSON
            c.beforeType c.sigR c.sigS) ∧
      ((encodeWebAuthnSignature c.authenticatorData c.clientDataJSON
          c.beforeType c.sigR c.sigS).length
          = createPasskeyDummySignature.length ↔
        pad32 c.authenticatorData.length + pad32 c.clientDataJSON.length = 192)) ∧
    (∀ c : WebAuthnCeremony, c.verified = true →
      getPasskeySignUserOperation c op
        = .ok (encodeWebAuthnSignature c.authenticatorData c.clientDataJSON
            c.beforeType c.sigR c.sigS) ∧
      ((encodeWebAuthnSignature c.authenticatorData c.clientDataJSON
          c.beforeType c.sigR c.sigS).length
          = getPasskeyDummySignature.length ↔
        pad32 c.authenticatorData.length + pad32 c.clientDataJSON.length = 192)) := by
  have hcreate : createPasskeyDummySignature.length = 416 := by decide
  have hget : getPasskeyDummySignature.length = 416 := by decide
  have hkernel : kernelAccountDummySignature.length = 69 := by decide
  refine ⟨?_, ?_, ?_⟩
  · intro sig hlen
    simp [kernelAccountSignUserOperation, hkernel, hlen]
  · intro c hv
    refine ⟨by simp [createPasskeySignUserOperation, createPasskeySignMessage, hv], ?_⟩
    rw [encodeWebAuthnSignature_length, hcreate]
    omega
  · intro c hv
    refine ⟨by simp [getPasskeySignUserOperation, getPasskeySignMessage, hv], ?_⟩
    rw [encodeWebAuthnSignature_length, hget]
    omega

set_option maxRecDepth 8192 in
/-- Witness for the amended C6 at a 65-byte ECDSA signature and the
fixture ceremony whose payload sizes match the placeholders. -/
theorem c6_dummy_signature_length_amended_witness :
    ((List.replicate 65 0x12 : Bytes).length = 65 ∧
      (kernelAccountSignUserOperation (List.replicate 65 0x12)).length
        = kernelAccountDummySignature.length) ∧
    (fixtureCeremony.verified = true ∧
      (createPasskeySignUserOperation fixtureCeremony fixtureOp
        = .ok (encodeWebAuthnSignature fixtureCeremony.authenticatorData
            fixtureCeremony.clientDataJSON fixtureCeremony.beforeType
            fixtureCeremony.sigR fixtureCeremony.sigS) ∧
      ((encodeWebAuthnSignature fixtureCeremony.authenticatorData
          fixtureCeremony.clientDataJSON fixtureCeremony.beforeType
          fixtureCeremony.sigR fixtureCeremony.sigS).length
          = createPasskeyDummySignature.length ↔
        pad32 fixtureCeremony.authenticatorData.length
          + pad32 fixtureCeremony.clientDataJSON.length = 192))) ∧
    (getPasskeySignUserOperation fixtureCeremony fixtureOp
        = .ok (encodeWebAuthnSignature fixtureCeremony.authenticatorData
            fixtureCeremony.clientDataJSON fixtureCeremony.beforeType
            fixtureCeremony.sigR fixtureCeremony.sigS) ∧
      ((encodeWebAuthnSignature fixtureCeremony.authenticatorData
          fixtureCeremony.clientDataJSON fixtureCeremony.beforeType
          fixtureCeremony.sigR fixtureCeremony.sigS).length
          = getPasskeyDummySignature.length ↔
        pad32 fixtureCeremony.authenticatorData.length
          + pad32 fixtureCeremony.clientDataJSON.length = 192)) :=
  ⟨⟨by simp, (c6_dummy_signature_length_amended fixtureOp).1
      (List.replicate 65 0x12) (by simp)⟩,
    ⟨rfl, (c6_dummy_signature_length_amended fixtureOp).2.1 fixtureCeremony rfl⟩,
    (c6_dummy_signature_length_amended fixtureOp).2.2 fixtureCeremony rfl⟩

/-- Claim C9: for every account/validator object exposed here (both passkey
validator variants and the ECDSA kernel smart account) and every transaction
input, `signTransaction` fails with the `UnsupportedOperation` error
(`SignTransactionNotSupportedBySmartAccount`); `signMessage`, `signTypedData`
and `signUserOperation` remain available — for the passkey objects each
succeeds for every verified ceremony (given well-formed typed data for
`signTypedData`), and the kernel account's delegating `signMessage`,
`signTypedData` and `signUserOperation` are total. -/
theorem c9_sign_transaction_unsupported (tx : Tx) (c : WebAuthnCeremony)
    (td : TypedDataInput) (op : UserOp) (sigM sigT sigU : Bytes)
    (hv : c.verified = true) (htd : td.valid = true) :
    createPasskeySignTransaction tx = .error .unsupportedOperation ∧
    getPasskeySignTransaction tx = .error .unsupportedOperation ∧
    kernelAccountSignTransaction tx = .error .unsupportedOperation ∧
    createPasskeySignMessage c = .ok (encodeWebAuthnSignature
      c.authenticatorData c.clientDataJSON c.beforeType c.sigR c.sigS) ∧
    getPasskeySignMessage c = .ok (encodeWebAuthnSignature
      c.authenticatorData c.clientDataJSON c.beforeType c.sigR c.sigS) ∧
    createPasskeySignTypedData td c = .ok (encodeWebAuthnSignature
      c.authenticatorData c.clientDataJSON c.beforeType c.sigR c.sigS) ∧
    getPasskeySignTypedData td c = .ok (encodeWebAuthnSignature
      c.authenticatorData c.clientDataJSON c.beforeType c.sigR c.sigS) ∧
    createPasskeySignUserOperation c op = .ok (encodeWebAuthnSignature
      c.authenticatorData c.clientDataJSON c.beforeType c.sigR c.sigS) ∧
    getPasskeySignUserOperation c op = .ok (encodeWebAuthnSignature
      c.authenticatorData c.clientDataJSON c.beforeType c.sigR c.sigS) ∧
    kernelAccountSignMessage sigM = sigM ∧
    kernelAccountSignTypedData sigT = sigT ∧
    kernelAccountSignUserOperation sigU = [0x00, 0x00, 0x00, 0x00] ++ sigU := by
  refine ⟨rfl, rfl, rfl, ?_, ?_, ?_, ?_, ?_, ?_, rfl, rfl, rfl⟩ <;>
    simp [createPasskeySignMessage, getPasskeySignMessage,
      createPasskeySignTypedData, getPasskeySignTypedData,
      createPasskeySignUserOperation, getPasskeySignUserOperation, hv, htd]

/-- Witness for C9 at the concrete fixture transaction, ceremony and typed
data. -/
theorem c9_sign_transaction_unsupported_witness :
    (fixtureCeremony.verified = true ∧ fixtureTypedData.valid = true) ∧
    (createPasskeySignTransaction fixtureTx = .error .unsupportedOperation ∧
    getPasskeySignTransaction fixtureTx = .error .unsupportedOperation ∧
    kernelAccountSignTransaction fixtureTx = .error .unsupportedOperation ∧
    createPasskeySignMessage fixtureCeremony = .ok (encodeWebAuthnSignature
      fixtureCeremony.authenticatorData fixtureCeremony.clientDataJSON
      fixtureCeremony.beforeType fixtureCeremony.sigR fixtureCeremony.sigS) ∧
    getPasskeySignMessage fixtureCeremony = .ok (encodeWebAuthnSignature
      fixtureCeremony.authenticatorData fixtureCeremony.clientDataJSON
      fixtureCeremony.beforeType fixtureCeremony.sigR fixtureCeremony.sigS) ∧
    createPasskeySignTypedData fixtureTypedData fixtureCeremony
      = .ok (encodeWebAuthnSignature fixtureCeremony.authenticatorData
        fixtureCeremony.clientDataJSON fixtureCeremony.beforeType
        fixtureCeremony.sigR fixtureCeremony.sigS) ∧
    getPasskeySignTypedData fixtureTypedData fixtureCeremony
      = .ok (encodeWebAuthnSignature fixtureCeremony.authenticatorData
        fixtureCeremony.clientDataJSON fixtureCeremony.beforeType
        fixtureCeremony.sigR fixtureCeremony.sigS) ∧
    createPasskeySignUserOperation fixtureCeremony fixtureOp
      = .ok (encodeWebAuthnSignature fixtureCeremony.authenticatorData
        fixtureCeremony.clientDataJSON fixtureCeremony.beforeType
        fixtureCeremony.sigR fixtureCeremony.sigS) ∧
    getPasskeySignUserOperation fixtureCeremony fixtureOp
      = .ok (encodeWebAuthnSignature fixtureCeremony.authenticatorData
        fixtureCeremony.clientDataJSON fixtureCeremony.beforeType
        fixtureCeremony.sigR fixtureCeremony.sigS) ∧
    kernelAccountSignMessage [0x13] = [0x13] ∧
    kernelAccountSignTypedData [0x14] = [0x14] ∧
    kernelAccountSignUserOperation [0x12]
      = [0x00, 0x00, 0x00, 0x00] ++ [0x12]) :=
  ⟨⟨rfl, rfl⟩, c9_sign_transaction_unsupported fixtureTx fixtureCeremony
    fixtureTypedData fixtureOp [0x13] [0x14] [0x12] rfl rfl⟩

/-- Claim C10: for both WebAuthn passkey validator variants
(`createPasskeyValidator` and `getPasskeyValidator`), `isEnabled` returns
`false` for every account address and every selector. -/
theorem c10_passkey_is_enabled_false (account selector : Bytes) :
    createPasskeyIsEnabled account selector = false ∧
    getPasskeyIsEnabled account selector = false :=
  ⟨rfl, rfl⟩

end ZeroDevSpec
